import Mathlib

/-!
Verification of the asynchronous task pipeline of channel-summary-hub-back:
the Redis-backed priority queue (redis_queue.py), the worker dispatch loop
(worker.py), and the three stage executors plus the chain orchestrator
(tasks.py).  The Python code is shallowly embedded: external collaborators
(yt-dlp, Azure blob storage, ffmpeg, the transcription and summarization
models) are oracles supplied through environment records, the relational
store is an explicit state value, and every executor returns the resulting
durable state together with the exception behaviour observable by its
caller.
-/

/-! ## Python string helpers -/

/-- ASCII lowering of one character, the fragment of Python str.lower
relevant to the priority strings compared by add_task. -/
def charLower (c : Char) : Char :=
  if 'A' ≤ c ∧ c ≤ 'Z' then Char.ofNat (c.toNat + 32) else c

/-- Python s.lower() restricted to ASCII. -/
def pyLower (s : String) : String := String.mk (s.data.map charLower)

/-- redis_queue.py:37, the test `priority.lower() == "high"`. -/
def isHigh (priority : String) : Bool := pyLower priority == "high"

/-- Python truthiness of a nullable string column: None and "" are falsy. -/
def pyTruthy : Option String → Bool
  | none => false
  | some s => s != ""

/-! ## Priority queue (redis_queue.py / worker.py)

The queue state is the pair of Redis lists `task_queue_high` and
`task_queue_low`.  RPUSH appends at the tail; BRPOP removes from the tail
of the first non-empty list among the two keys, in the order given. -/

structure QState (α : Type) where
  high : List α
  low : List α
deriving DecidableEq, Repr

def emptyQ {α : Type} : QState α := ⟨[], []⟩

/-- redis_queue.py:29-42 RedisTaskQueue.add_task: RPUSH the serialized
envelope onto the high list when priority.lower() == "high", else onto the
low list. -/
def add_task {α : Type} (s : QState α) (priority : String) (env : α) : QState α :=
  if isHigh priority then { s with high := s.high ++ [env] }
  else { s with low := s.low ++ [env] }

/-- worker.py:36 `r.brpop([queue_high, queue_low], timeout)`: BRPOP checks
the keys in the listed order and removes the TAIL element of the first
non-empty list; none models timeout expiry on two empty lists. -/
def brpop {α : Type} (s : QState α) : Option (α × QState α) :=
  match s.high.getLast? with
  | some x => some (x, ⟨s.high.dropLast, s.low⟩)
  | none =>
    match s.low.getLast? with
    | some x => some (x, ⟨s.high, s.low.dropLast⟩)
    | none => none

/-- Repeatedly dequeue (worker loop iterations), collecting envelopes until
the queue is empty or the fuel runs out. -/
def drain {α : Type} : Nat → QState α → List α
  | 0, _ => []
  | n + 1, s =>
    match brpop s with
    | none => []
    | some (x, s') => x :: drain n s'

/-- Run a whole producer history (priority, envelope) through add_task. -/
def enqueueAll {α : Type} (ops : List (String × α)) : QState α :=
  ops.foldl (fun s op => add_task s op.1 op.2) emptyQ

/-- The envelopes of a history enqueued with an effectively-high priority. -/
def highsOf {α : Type} (ops : List (String × α)) : List α :=
  (ops.filter (fun op => isHigh op.1)).map Prod.snd

/-- The envelopes of a history enqueued with any other priority. -/
def lowsOf {α : Type} (ops : List (String × α)) : List α :=
  (ops.filter (fun op => !isHigh op.1)).map Prod.snd

/-! ## Worker dispatch (worker.py) -/

/-- The two callables registered in worker.py:18-22. -/
inductive TaskFunc where
  | summarize_text
  | process_chain_tasks
deriving DecidableEq, Repr

/-- worker.py:18-22 task_mapping: the dispatch table, stage name to
callable.  It contains exactly the two entries of the source. -/
def task_mapping : List (String × TaskFunc) :=
  [("summarize_text", TaskFunc.summarize_text),
   ("process_chain_tasks", TaskFunc.process_chain_tasks)]

/-- Python task_mapping.get(func_name). -/
def lookupTask (name : String) : Option TaskFunc :=
  (task_mapping.find? (fun kv => kv.1 == name)).map Prod.snd

/-- The stage names the producer actually enqueues: app.py:333 enqueues
"summarize_text", app.py:337 and app.py:343 enqueue "download_audio". -/
def producer_enqueued_tasks : List String :=
  ["summarize_text", "download_audio", "download_audio"]

/-- A parsed task envelope as the worker sees it after json.loads: the
value of the "task" key (none when the key is absent). -/
structure Envelope where
  funcName : Option String
deriving DecidableEq, Repr

example : lookupTask "summarize_text" = some TaskFunc.summarize_text := by decide
example : lookupTask "download_audio" = none := by decide
example : isHigh "HIGH" = true := by decide
example : isHigh "low" = false := by decide

/-! ## Relational store (models.py)

Only the columns the pipeline reads or writes are modelled.  A session is
implicit: every mutation in the source is immediately followed by
session.commit() before the next operation that can raise, so each
executor threads the durable database value and a failure path returns the
value as of the last commit (session.rollback() discards nothing that was
already committed, and session.close() discards pending writes). -/

/-- models.py Video: the fields consumed/produced by the stages. -/
structure VideoRow where
  id : Nat
  youtube_video_id : String
  audio_url : Option String
  transcript_text : Option String
  summary_text : Option String
  final_points : Option String
deriving DecidableEq, Repr

/-- models.py DBTask: the fields written by the stage executors. -/
structure TaskRow where
  video_id : Option Nat
  task_type : String
  status : String
  priority : Nat
  error_message : Option String
deriving DecidableEq, Repr

/-- The durable relational state. -/
structure DB where
  videos : List VideoRow
  tasks : List TaskRow
deriving DecidableEq, Repr

/-- session.query(Video).filter(Video.id == video_id).first() -/
def findVideoById (db : DB) (video_id : Nat) : Option VideoRow :=
  db.videos.find? (fun v => v.id == video_id)

/-- session.query(Video).filter(Video.youtube_video_id == yid).first() -/
def findVideoByYt (db : DB) (yid : String) : Option VideoRow :=
  db.videos.find? (fun v => v.youtube_video_id == yid)

/-- Mutate the Video row selected by primary key and commit. -/
def updateVideo (db : DB) (video_id : Nat) (f : VideoRow → VideoRow) : DB :=
  { db with videos := db.videos.map (fun v => if v.id == video_id then f v else v) }

/-- Update the last element of a list, if any. -/
def updateLast {α : Type} (l : List α) (f : α → α) : List α :=
  match l.getLast? with
  | none => l
  | some a => l.dropLast ++ [f a]

/-- Append a freshly committed task row. -/
def addTaskRow (db : DB) (t : TaskRow) : DB :=
  { db with tasks := db.tasks ++ [t] }

/-- Set the status of the task row created at stage start (the row this
executor appended last) and commit; models the mutation of the tracked
db_task ORM object. -/
def setLastTaskStatus (db : DB) (st : String) : DB :=
  { db with tasks := updateLast db.tasks (fun t => { t with status := st }) }

/-! ## Observable external effects -/

/-- The calls an executor makes to external collaborators, plus the writes
it commits onto the Video record, in program order. -/
inductive Effect where
  | blobGet (key : String)
  | blobPut (key : String)
  | ffmpegRun (cmd : List String)
  | whisperCall (file : List Char)
  | llmCall (chunk : String)
  | videoWrite (field : String)
deriving DecidableEq, Repr

/-- The outcome of one executor call as its caller observes it: the
durable database afterwards, whether an exception propagated to the
caller, the error message caught by the executor's own except-block (none
on success), the external effects issued, and the log lines. -/
structure ExecResult where
  db : DB
  raised : Bool
  caughtError : Option String
  effects : List Effect
  log : List String
deriving DecidableEq, Repr

/-- The blob name used by download_audio and transcribe_audio,
f"{video_id}.mp3". -/
def blobKey (video_id : Nat) : String := toString video_id ++ ".mp3"

/-! ## Text splitter (langchain CharacterTextSplitter, used at tasks.py:228)

CharacterTextSplitter(chunk_size=1000, chunk_overlap=100) splits the text
on the default separator "\n\n" (keep_separator=False), drops empty
pieces, then greedily re-merges the pieces into chunks of total length at
most chunk_size, carrying over a tail of pieces of total length at most
chunk_overlap, joining with the separator and stripping whitespace.  It
does NOT cut inside a separator-free run: a piece longer than chunk_size
is emitted whole. -/

/-- Python whitespace, the set stripped by str.strip(). -/
def pyWhitespace (c : Char) : Bool :=
  c == ' ' || c == '\t' || c == '\n' || c == '\r' || c == '\x0b' || c == '\x0c'

/-- Python str.strip(). -/
def pyStrip (l : List Char) : List Char :=
  ((l.dropWhile pyWhitespace).reverse.dropWhile pyWhitespace).reverse

/-- If sep is a prefix of the text, return the remainder after it. -/
def prefixEat : List Char → List Char → Option (List Char)
  | [], rest => some rest
  | _ :: _, [] => none
  | s :: ss, c :: cs => if c = s then prefixEat ss cs else none

/-- Leftmost, non-overlapping split on an exact separator, as
re.split(re.escape(sep), text).  Fuel-driven scan; the initial fuel
text.length suffices because every step consumes at least one character. -/
def splitOnSepGo (sep : List Char) : Nat → List Char → List Char → List (List Char)
  | _, [], acc => [acc.reverse]
  | 0, rest, acc => [acc.reverse ++ rest]
  | fuel + 1, c :: cs, acc =>
    match prefixEat sep (c :: cs) with
    | some rest => acc.reverse :: splitOnSepGo sep fuel rest []
    | none => splitOnSepGo sep fuel cs (c :: acc)

/-- re.split on the literal separator. -/
def splitOnSep (sep text : List Char) : List (List Char) :=
  splitOnSepGo sep text.length text []

/-- Does sep occur (as a contiguous subsequence) in the text? -/
def containsSeq (sep : List Char) : List Char → Bool
  | [] => (prefixEat sep []).isSome
  | c :: cs => (prefixEat sep (c :: cs)).isSome || containsSeq sep cs

/-- Python separator.join(docs). -/
def intercalateL (sep : List Char) : List (List Char) → List Char
  | [] => []
  | [d] => d
  | d :: ds => d ++ sep ++ intercalateL sep ds

/-- TextSplitter._join_docs: join with the separator, strip, and drop the
chunk when the result is empty. -/
def joinDocs (docs : List (List Char)) (sep : List Char) : Option (List Char) :=
  let text := pyStrip (intercalateL sep docs)
  if text = [] then none else some text

/-- The while-loop inside TextSplitter._merge_splits that pops pieces off
the front of current_doc until the carried total is at most chunk_overlap
and the next piece fits. -/
def popLoop (chunkSize overlap sepLen dLen : Nat) :
    List (List Char) → Nat → List (List Char) × Nat
  | [], total => ([], total)
  | c :: cs, total =>
    if overlap < total ∨ (chunkSize < total + dLen + sepLen ∧ 0 < total) then
      popLoop chunkSize overlap sepLen dLen cs
        (total - (c.length + if cs = [] then 0 else sepLen))
    else (c :: cs, total)

/-- TextSplitter._merge_splits: fold the pieces into chunks.  current_doc
is the list of pieces of the chunk being built, total its joined length,
docs the finished chunks. -/
def mergeGo (chunkSize overlap sepLen : Nat) (sep : List Char) :
    List (List Char) → List (List Char) → Nat → List (List Char) → List (List Char)
  | [], currentDoc, _, docs =>
    (match joinDocs currentDoc sep with
     | some doc => docs ++ [doc]
     | none => docs)
  | d :: ds, currentDoc, total, docs =>
    let dLen := d.length
    if chunkSize < total + dLen + (if currentDoc = [] then 0 else sepLen) then
      if currentDoc = [] then
        mergeGo chunkSize overlap sepLen sep ds [d] (total + dLen) docs
      else
        let docs1 :=
          match joinDocs currentDoc sep with
          | some doc => docs ++ [doc]
          | none => docs
        let pt := popLoop chunkSize overlap sepLen dLen currentDoc total
        mergeGo chunkSize overlap sepLen sep ds (pt.1 ++ [d])
          (pt.2 + dLen + (if pt.1 = [] then 0 else sepLen)) docs1
    else
      mergeGo chunkSize overlap sepLen sep ds (currentDoc ++ [d])
        (total + dLen + (if currentDoc = [] then 0 else sepLen)) docs

/-- The default CharacterTextSplitter separator "\n\n". -/
def sepChars : List Char := ['\n', '\n']

/-- CharacterTextSplitter.split_text on character lists. -/
def splitTextChars (chunkSize overlap : Nat) (text : List Char) : List (List Char) :=
  let splits := (splitOnSep sepChars text).filter (fun p => !p.isEmpty)
  mergeGo chunkSize overlap sepChars.length sepChars splits [] 0 []

/-- splitter.split_text(transcript_text) at tasks.py:228-229. -/
def split_text (chunkSize overlap : Nat) (text : String) : List String :=
  (splitTextChars chunkSize overlap text.data).map String.mk

/-! ## Segment file names (tasks.py:144-155)

ffmpeg -f segment writes split_000.mp3, split_001.mp3, ... in temporal
order; the code globs split_*.mp3 (arbitrary order) and sorts the names
lexicographically. -/

/-- One decimal digit character. -/
def digitChar : Nat → Char
  | 0 => '0' | 1 => '1' | 2 => '2' | 3 => '3' | 4 => '4'
  | 5 => '5' | 6 => '6' | 7 => '7' | 8 => '8' | _ => '9'

/-- The file name ffmpeg gives segment i under the pattern
split_%03d.mp3. -/
def splitName (i : Nat) : List Char :=
  "split_".data ++ [digitChar (i / 100), digitChar (i / 10 % 10), digitChar (i % 10)]
    ++ ".mp3".data

/-- Lexicographic comparison of file names by code point, as Python
sorted() compares strings. -/
def lexLe : List Char → List Char → Bool
  | [], _ => true
  | _ :: _, [] => false
  | a :: as, b :: bs => if a < b then true else if b < a then false else lexLe as bs

/-- The relation form of lexLe, for List.insertionSort. -/
def fileLe (a b : List Char) : Prop := lexLe a b = true

instance : DecidableRel fileLe := fun a b => decEq (lexLe a b) true

/-- Python sorted(...) over the globbed segment file names. -/
def sortFiles (l : List (List Char)) : List (List Char) :=
  List.insertionSort fileLe l

/-! ## download_audio (tasks.py:29-101) -/

/-- Oracle for the external outcomes of one download_audio run: whether
yt-dlp produced the mp3 file, the AZURE_BLOB_CONNECTION_STRING value
(none = unset), whether the blob upload succeeded, and the resulting blob
URL. -/
structure DownloadEnv where
  downloadOk : Bool
  blobConnStr : Option String
  uploadOk : Bool
  blobUrl : String

/-- tasks.py:29-101 download_audio.  Creates the DOWNLOAD_AUDIO task row
IN_PROGRESS and commits; downloads the audio and uploads it to the blob
store keyed by f"{video_id}.mp3"; writes audio_url onto the Video row and
marks the task COMPLETED.  The except-block at tasks.py:97-99 catches
every exception, logs it and rolls back: nothing propagates to the caller
and no FAILED row is written. -/
def download_audio (video_id : Nat) (youtube_url : String) (env : DownloadEnv)
    (db : DB) : ExecResult :=
  let logs := ["[download_audio] Start video_id=" ++ toString video_id ++
               ", youtube_url=" ++ youtube_url]
  let task0 : TaskRow :=
    { video_id := some video_id, task_type := "DOWNLOAD_AUDIO",
      status := "IN_PROGRESS", priority := 9, error_message := none }
  let s1 := addTaskRow db task0
  if env.downloadOk = false then
    { db := s1, raised := false,
      caughtError := some "Audio file download failed.",
      effects := [], log := logs }
  else match env.blobConnStr with
  | none =>
    { db := s1, raised := false,
      caughtError := some "Azure Blob connection string not set.",
      effects := [], log := logs }
  | some _ =>
    if env.uploadOk = false then
      { db := s1, raised := false,
        caughtError := some "blob upload failed",
        effects := [Effect.blobPut (blobKey video_id)], log := logs }
    else
      match findVideoById s1 video_id with
      | some _ =>
        let s2 := updateVideo s1 video_id
          (fun v => { v with audio_url := some env.blobUrl })
        let s3 := setLastTaskStatus s2 "COMPLETED"
        { db := s3, raised := false, caughtError := none,
          effects := [Effect.blobPut (blobKey video_id),
                      Effect.videoWrite "audio_url"],
          log := logs }
      | none =>
        let s3 := setLastTaskStatus s1 "COMPLETED"
        { db := s3, raised := false, caughtError := none,
          effects := [Effect.blobPut (blobKey video_id)],
          log := logs }

/-! ## transcribe_audio (tasks.py:103-192) -/

/-- Oracle for the external outcomes of one transcribe_audio run:
AZURE_BLOB_CONNECTION_STRING (default "", falsy when unset), whether the
blob download succeeds, the downloaded file size in bytes, whether ffmpeg
segmentation succeeds, how many segment files it produces, the order in
which glob.glob returns them, and the transcription result per file (none
models a raising transcription call). -/
structure TranscribeEnv where
  blobConnStr : String
  blobOk : Bool
  sizeBytes : Nat
  ffmpegOk : Bool
  numSegments : Nat
  globOrder : List Nat
  segText : List Char → Option String
  directText : Option String

/-- The temporary mp3 path (tempfile.NamedTemporaryFile). -/
def tempMp3Path : List Char := "temp.mp3".data

/-- The exact ffmpeg invocation at tasks.py:145-151: fixed 300-second
segments, stream copy. -/
def ffmpegCmd : List String :=
  ["ffmpeg", "-i", "temp.mp3", "-f", "segment", "-segment_time", "300",
   "-c", "copy", "split_%03d.mp3"]

/-- The for-loop at tasks.py:158-166: transcribe each split file in order,
appending transcription + "\n" to the accumulator; a raising call aborts
the loop.  Returns the whisper-call effects in order and the accumulated
transcript (none when some call raised). -/
def transcribeLoop (f : List Char → Option String) (acc : String) :
    List (List Char) → List Effect × Option String
  | [] => ([], some acc)
  | p :: ps =>
    match f p with
    | none => ([Effect.whisperCall p], none)
    | some t =>
      let r := transcribeLoop f (acc ++ t ++ "\n") ps
      (Effect.whisperCall p :: r.1, r.2)

/-- tasks.py:177-187: write transcript_text onto the Video row (single
write, after all transcription), mark the task COMPLETED. -/
def finishTranscribe (video_id : Nat) (transcript : String) (s1 : DB)
    (effs : List Effect) (logs : List String) : ExecResult :=
  match findVideoById s1 video_id with
  | some _ =>
    let s2 := updateVideo s1 video_id
      (fun v => { v with transcript_text := some transcript })
    let s3 := setLastTaskStatus s2 "COMPLETED"
    { db := s3, raised := false, caughtError := none,
      effects := effs ++ [Effect.videoWrite "transcript_text"], log := logs }
  | none =>
    let s3 := setLastTaskStatus s1 "COMPLETED"
    { db := s3, raised := false, caughtError := none,
      effects := effs, log := logs }

/-- The body of tasks.py:103-192 after the start log line; audio_url is
not used anywhere in it (the blob is fetched under f"{video_id}.mp3"). -/
def transcribeCore (video_id : Nat) (env : TranscribeEnv) (db : DB) : ExecResult :=
  let task0 : TaskRow :=
    { video_id := some video_id, task_type := "TRANSCRIBE",
      status := "IN_PROGRESS", priority := 9, error_message := none }
  let s1 := addTaskRow db task0
  if env.blobConnStr = "" then
    { db := s1, raised := false,
      caughtError := some "No Blob connection string set.",
      effects := [], log := [] }
  else if env.blobOk = false then
    { db := s1, raised := false,
      caughtError := some "blob download failed",
      effects := [Effect.blobGet (blobKey video_id)], log := [] }
  else if 20 * 1024 * 1024 < env.sizeBytes then
    if env.ffmpegOk = false then
      { db := s1, raised := false, caughtError := some "ffmpeg failed",
        effects := [Effect.blobGet (blobKey video_id), Effect.ffmpegRun ffmpegCmd],
        log := [] }
    else
      let files := sortFiles (env.globOrder.map splitName)
      let r := transcribeLoop env.segText "" files
      match r.2 with
      | none =>
        { db := s1, raised := false, caughtError := some "transcription failed",
          effects := [Effect.blobGet (blobKey video_id), Effect.ffmpegRun ffmpegCmd]
            ++ r.1,
          log := [] }
      | some transcript =>
        finishTranscribe video_id transcript s1
          ([Effect.blobGet (blobKey video_id), Effect.ffmpegRun ffmpegCmd] ++ r.1) []
  else
    match env.directText with
    | none =>
      { db := s1, raised := false, caughtError := some "transcription failed",
        effects := [Effect.blobGet (blobKey video_id), Effect.whisperCall tempMp3Path],
        log := [] }
    | some transcript =>
      finishTranscribe video_id transcript s1
        [Effect.blobGet (blobKey video_id), Effect.whisperCall tempMp3Path] []

/-- tasks.py:103-192 transcribe_audio.  The audio_url parameter occurs
only in the start log line (tasks.py:104); the except-block at
tasks.py:188-190 catches every exception, so nothing propagates and no
FAILED row is written. -/
def transcribe_audio (video_id : Nat) (audio_url : String) (env : TranscribeEnv)
    (db : DB) : ExecResult :=
  let core := transcribeCore video_id env db
  { core with
    log := ("[transcribe_audio] Start video_id=" ++ toString video_id ++
            ", audio_url=" ++ audio_url) :: core.log }

/-! ## summarize_text (tasks.py:194-294) -/

/-- One chunk's summarization outcome: the chat call raised, the reply
failed json.loads, or a parsed object whose "summary"/"points" fields
(defaulted to "") are returned. -/
inductive LLMOutcome where
  | apiError
  | badJson
  | ok (summary points : String)

/-- Oracle for the summarization model: the outcome per chunk prompt. -/
structure SummarizeEnv where
  llm : String → LLMOutcome

/-- The for-loop at tasks.py:236-265: one chat call per chunk, collecting
summaries and points; an API error or an unparseable reply raises
HTTPException and aborts the loop. -/
def runChunks (llm : String → LLMOutcome) :
    List String → List Effect × Option (List String × List String)
  | [] => ([], some ([], []))
  | c :: cs =>
    match llm c with
    | LLMOutcome.apiError => ([Effect.llmCall c], none)
    | LLMOutcome.badJson => ([Effect.llmCall c], none)
    | LLMOutcome.ok s p =>
      match runChunks llm cs with
      | (effs, none) => (Effect.llmCall c :: effs, none)
      | (effs, some (ss, ps)) => (Effect.llmCall c :: effs, some (s :: ss, p :: ps))

/-- tasks.py:194-294 summarize_text.  Looks the video up by its YouTube
id; raises before creating any task row or issuing any model call when
the record is missing or transcript_text is falsy; on any caught failure
the except-block at tasks.py:281-292 appends a fresh FAILED task row with
the error message (the IN_PROGRESS row, when already created, is left
IN_PROGRESS). -/
def summarize_text (youtube_video_id : String) (env : SummarizeEnv)
    (db : DB) : ExecResult :=
  match findVideoByYt db youtube_video_id with
  | none =>
    let msg := "Video record not found for youtube_video_id=" ++
      youtube_video_id ++ "."
    let fr : TaskRow :=
      { video_id := none, task_type := "SUMMARIZE", status := "FAILED",
        priority := 0, error_message := some msg }
    { db := addTaskRow db fr, raised := false, caughtError := some msg,
      effects := [], log := [] }
  | some v =>
    if pyTruthy v.transcript_text = false then
      let msg := "Transcript text not found in DB for video_id=" ++
        toString v.id ++ "."
      let fr : TaskRow :=
        { video_id := some v.id, task_type := "SUMMARIZE", status := "FAILED",
          priority := 0, error_message := some msg }
      { db := addTaskRow db fr, raised := false, caughtError := some msg,
        effects := [], log := [] }
    else
      let task0 : TaskRow :=
        { video_id := some v.id, task_type := "SUMMARIZE",
          status := "IN_PROGRESS", priority := 9, error_message := none }
      let s1 := addTaskRow db task0
      let transcript := v.transcript_text.getD ""
      let chunks := split_text 1000 100 transcript
      let r := runChunks env.llm chunks
      match r.2 with
      | none =>
        let msg := "summarization failed"
        let fr : TaskRow :=
          { video_id := some v.id, task_type := "SUMMARIZE", status := "FAILED",
            priority := 0, error_message := some msg }
        { db := addTaskRow s1 fr, raised := false, caughtError := some msg,
          effects := r.1, log := [] }
      | some sp =>
        let final_summary := String.intercalate "\n\n" sp.1
        let final_points := String.intercalate "\n" sp.2
        let s2 := updateVideo s1 v.id (fun w =>
          { w with summary_text := some final_summary,
                   final_points := some final_points })
        let s3 := setLastTaskStatus s2 "COMPLETED"
        { db := s3, raised := false, caughtError := none,
          effects := r.1 ++ [Effect.videoWrite "summary_text",
                             Effect.videoWrite "final_points"],
          log := [] }

/-! ## process_chain_tasks (tasks.py:296-325) -/

/-- The three pipeline stages. -/
inductive Stage where
  | fetch
  | transcribe
  | summarize
deriving DecidableEq, Repr

/-- The outcome of one chain run: final durable state and the stages that
were invoked, in order. -/
structure ChainResult where
  db : DB
  invoked : List Stage
deriving Repr

/-- tasks.py:296-325 process_chain_tasks: run download_audio, re-read the
Video row, run transcribe_audio only when audio_url is truthy, and then
ALWAYS run summarize_text (tasks.py:324 is outside the audio_url guard);
only a missing Video row returns early. -/
def process_chain_tasks (video_id : Nat) (youtube_url : String)
    (denv : DownloadEnv) (tenv : TranscribeEnv) (senv : SummarizeEnv)
    (db : DB) : ChainResult :=
  let r1 := download_audio video_id youtube_url denv db
  match findVideoById r1.db video_id with
  | none => { db := r1.db, invoked := [Stage.fetch] }
  | some v =>
    match v.audio_url with
    | some url =>
      if url != "" then
        let r2 := transcribe_audio video_id url tenv r1.db
        let r3 := summarize_text v.youtube_video_id senv r2.db
        { db := r3.db, invoked := [Stage.fetch, Stage.transcribe, Stage.summarize] }
      else
        let r3 := summarize_text v.youtube_video_id senv r1.db
        { db := r3.db, invoked := [Stage.fetch, Stage.summarize] }
    | none =>
      let r3 := summarize_text v.youtube_video_id senv r1.db
      { db := r3.db, invoked := [Stage.fetch, Stage.summarize] }

/-! ## Worker loop body (worker.py:34-55) -/

/-- What a dispatched callable does to the database, as its caller sees
it: return normally or raise with a message, either way leaving some
durable state. -/
inductive ExecOutcome where
  | ok (db : DB)
  | exc (msg : String) (db : DB)

/-- The try-block at worker.py:39-49: parse the envelope (none models a
raising json.loads), look the name up in task_mapping, execute on a hit,
log and drop on a miss. -/
inductive TryResult where
  | ok (db : DB) (log : List String)
  | exc (msg : String) (db : DB)

/-- The body of the worker.py try-block for one dequeued envelope. -/
def worker_body_try (parsed : Option Envelope)
    (exec : TaskFunc → DB → ExecOutcome) (db : DB) : TryResult :=
  match parsed with
  | none => TryResult.exc "json.loads failed" db
  | some env =>
    match env.funcName with
    | none => TryResult.ok db ["Unknown task: None"]
    | some name =>
      match lookupTask name with
      | none => TryResult.ok db ["Unknown task: " ++ name]
      | some f =>
        match exec f db with
        | ExecOutcome.ok db2 => TryResult.ok db2 ["Executing task " ++ name]
        | ExecOutcome.exc m db2 => TryResult.exc m db2

/-- One full iteration body of the worker loop for a dequeued envelope:
the except-block at worker.py:50-51 catches every exception, so the
returned flag (did an exception propagate out of the body?) is the
observable loop-termination behaviour. -/
def worker_body (parsed : Option Envelope)
    (exec : TaskFunc → DB → ExecOutcome) (db : DB) : DB × List String × Bool :=
  match worker_body_try parsed exec db with
  | TryResult.ok db2 log => (db2, log, false)
  | TryResult.exc m db2 => (db2, ["Error processing task: " ++ m], false)

/-! ## Concrete databases and oracle environments used by the witnesses
and counterexamples -/

/-- A single Video row with no audio, transcript or summary yet. -/
def v1 : VideoRow := ⟨1, "yt1", none, none, none, none⟩

/-- Database holding only v1. -/
def dbC : DB := ⟨[v1], []⟩

/-- A run in which yt-dlp fails to produce the audio file. -/
def denvFail : DownloadEnv := ⟨false, none, false, ""⟩

/-- A fully successful download environment. -/
def denvOk : DownloadEnv :=
  ⟨true, some "cs", true, "https://blob.example/1.mp3"⟩

/-- A transcription environment that fails at the connection-string
check. -/
def tenvStub : TranscribeEnv := ⟨"", false, 0, false, 0, [], fun _ => none, none⟩

/-- A summarization model that always errors. -/
def senvErr : SummarizeEnv := ⟨fun _ => LLMOutcome.apiError⟩

/-- A summarization model that always returns the parsed object
{"summary": "S", "points": "P"}. -/
def senvOk : SummarizeEnv := ⟨fun _ => LLMOutcome.ok "S" "P"⟩

/-- A 2500-character transcript with no blank-line separator. -/
def repA : List Char := List.replicate 2500 'a'

/-- The same transcript as a string. -/
def repAStr : String := String.mk repA

/-- The Video row of the summarize scenario: youtube id "vid123" with the
2500-character transcript pre-populated. -/
def vRep : VideoRow := ⟨1, "vid123", none, some repAStr, none, none⟩

/-- Database holding only vRep. -/
def dbRep : DB := ⟨[vRep], []⟩

/-- Per-segment transcription results for a two-segment run. -/
def segTextW : List Char → Option String := fun p =>
  if p = splitName 0 then some "t0"
  else if p = splitName 1 then some "t1"
  else none

/-- A 25 MiB blob split into two segments that glob returns out of
order. -/
def tenvW : TranscribeEnv :=
  ⟨"cs", true, 25 * 1024 * 1024, true, 2, [1, 0], segTextW, some "d"⟩

/-- A 5 MiB blob transcribed directly. -/
def tenvSmall : TranscribeEnv :=
  ⟨"cs", true, 5 * 1024 * 1024, true, 0, [], fun _ => none, some "d"⟩

/-- The task row each executor commits at stage start. -/
def startRow (video_id : Nat) (kind : String) : TaskRow :=
  { video_id := some video_id, task_type := kind, status := "IN_PROGRESS",
    priority := 9, error_message := none }

/-- The transcript accumulated by the segment loop when every
transcription call succeeds: each segment text followed by "\n". -/
def joinSegs (f : List Char → Option String) : List (List Char) → String
  | [] => ""
  | p :: ps => (f p).getD "" ++ "\n" ++ joinSegs f ps

/-! # Theorems -/

/-! ## Queue order (C1) -/

/-- Folding a producer history over add_task splits it into the two Redis
lists, each in enqueue order. -/
theorem enqueueAll_split {α : Type} (ops : List (String × α)) :
    ∀ s : QState α,
      ops.foldl (fun s op => add_task s op.1 op.2) s =
        ⟨s.high ++ highsOf ops, s.low ++ lowsOf ops⟩ := by
  induction ops with
  | nil => intro s; simp [highsOf, lowsOf]
  | cons op ops ih =>
    intro s
    rw [List.foldl_cons, ih (add_task s op.1 op.2)]
    by_cases h : isHigh op.1 <;>
      simp [add_task, h, highsOf, lowsOf, List.filter_cons]

/-- Draining a queue state by repeated BRPOP yields the high list in
reverse, then the low list in reverse. -/
theorem drain_brpop {α : Type} (h : List α) :
    ∀ l : List α, drain (h.length + l.length) ⟨h, l⟩ = h.reverse ++ l.reverse := by
  induction h using List.reverseRecOn with
  | nil =>
    intro l
    induction l using List.reverseRecOn with
    | nil => rfl
    | append_singleton l x ih =>
      simp only [List.length_nil, List.length_append, List.length_cons,
        List.length_nil, Nat.zero_add]
      have : l.length + 1 = l.length + 1 := rfl
      simp only [drain, brpop, List.getLast?_nil, List.getLast?_concat,
        List.dropLast_concat]
      simpa using ih
  | append_singleton h x ih =>
    intro l
    have hlen : (h ++ [x]).length + l.length = (h.length + l.length) + 1 := by
      simp; omega
    rw [hlen]
    simp only [drain, brpop, List.getLast?_concat, List.dropLast_concat]
    simp [ih l]

/-- The two filtered classes partition the history. -/
theorem highs_lows_length {α : Type} (ops : List (String × α)) :
    (highsOf ops).length + (lowsOf ops).length = ops.length := by
  induction ops with
  | nil => rfl
  | cons op ops ih =>
    by_cases h : isHigh op.1 <;>
      simp [highsOf, lowsOf, List.filter_cons, h] at * <;> omega

/-- C1 (amended).  After any interleaved history of high- and low-priority
add_task calls, draining the queue with BRPOP returns every effectively
high-priority envelope before any low-priority one, but WITHIN each
priority class the order is LIFO — the reverse of enqueue order — because
the producer RPUSHes at the tail and worker.py:36 BRPOPs from the same
tail. -/
theorem add_task_brpop_priority_lifo {α : Type} (ops : List (String × α)) :
    drain ((highsOf ops).length + (lowsOf ops).length) (enqueueAll ops) =
      (highsOf ops).reverse ++ (lowsOf ops).reverse := by
  have h1 := enqueueAll_split ops (emptyQ (α := α))
  unfold enqueueAll
  rw [h1]
  simpa [emptyQ] using drain_brpop (highsOf ops) (lowsOf ops)

/-- C1 (counterexample).  Two high-priority enqueues followed by two
dequeues return the envelopes in reverse order of enqueue, refuting the
claimed FIFO order within the high class. -/
theorem queue_fifo_counterexample :
    drain 2 (enqueueAll [("high", 0), ("high", 1)]) = [1, 0] ∧
      ¬ (drain 2 (enqueueAll [("high", 0), ("high", 1)]) =
          highsOf [("high", 0), ("high", 1)] ++ lowsOf [("high", 0), ("high", 1)]) := by
  constructor
  · decide
  · decide

/-! ## Dispatch table coverage (C5) -/

/-- C5.  The dispatch table at worker.py:18-22 maps only "summarize_text"
and "process_chain_tasks"; it has no entry for the fetch-audio stage under
the name the producer enqueues it with ("download_audio", app.py:337 and
app.py:343) nor any transcribe entry, so those envelopes are dropped as
unknown by the worker. -/
theorem task_mapping_drops_download_audio :
    "download_audio" ∈ producer_enqueued_tasks ∧
      lookupTask "download_audio" = none ∧
      lookupTask "transcribe_audio" = none ∧
      (lookupTask "summarize_text").isSome = true ∧
      (lookupTask "process_chain_tasks").isSome = true := by
  decide

/-! ## Worker loop resilience (C9) -/

/-- C9.  The worker loop body for one dequeued envelope never lets an
exception escape (worker.py:50-51 catches deserialization and executor
failures), and an unknown stage name is merely logged: the database is
untouched — in particular no Task Record is created — and the envelope is
discarded, so the loop goes on consuming. -/
theorem worker_body_resilient (parsed : Option Envelope)
    (exec : TaskFunc → DB → ExecOutcome) (db : DB) :
    (worker_body parsed exec db).2.2 = false ∧
      (∀ env name, parsed = some env → env.funcName = some name →
        lookupTask name = none →
        (worker_body parsed exec db).1 = db ∧
          (worker_body parsed exec db).2.1 = ["Unknown task: " ++ name]) := by
  constructor
  · unfold worker_body
    split <;> rfl
  · intro env name hp hn hl
    subst hp
    simp [worker_body, worker_body_try, hn, hl]

/-- C9 (witness).  A concrete envelope carrying the unknown stage name
"unknown_stage" is dropped without touching the database and without the
body raising. -/
theorem worker_body_resilient_witness :
    lookupTask "unknown_stage" = none ∧
      (worker_body (some ⟨some "unknown_stage"⟩)
        (fun _ d => ExecOutcome.ok d) dbC).2.2 = false ∧
      (worker_body (some ⟨some "unknown_stage"⟩)
        (fun _ d => ExecOutcome.ok d) dbC).1 = dbC := by
  refine ⟨by decide, ?_, ?_⟩
  · exact (worker_body_resilient (some ⟨some "unknown_stage"⟩)
      (fun _ d => ExecOutcome.ok d) dbC).1
  · exact ((worker_body_resilient (some ⟨some "unknown_stage"⟩)
      (fun _ d => ExecOutcome.ok d) dbC).2 ⟨some "unknown_stage"⟩
      "unknown_stage" rfl rfl (by decide)).1

/-! ## Chain orchestration (C2) -/

/-- C2 (amended).  If after Fetch-Audio the Video record has no non-empty
audio reference, process_chain_tasks skips Transcribe, but it still
invokes Summarize (tasks.py:324 lies outside the audio_url guard); the
chain stops after Fetch-Audio only when the Video record itself is
missing.  When the audio reference is non-empty, all three stages run in
order. -/
theorem chain_skips_transcribe_only (video_id : Nat) (youtube_url : String)
    (denv : DownloadEnv) (tenv : TranscribeEnv) (senv : SummarizeEnv) (db : DB) :
    (findVideoById (download_audio video_id youtube_url denv db).db video_id = none →
      (process_chain_tasks video_id youtube_url denv tenv senv db).invoked =
        [Stage.fetch]) ∧
    (∀ v, findVideoById (download_audio video_id youtube_url denv db).db video_id =
        some v → pyTruthy v.audio_url = false →
      (process_chain_tasks video_id youtube_url denv tenv senv db).invoked =
        [Stage.fetch, Stage.summarize]) ∧
    (∀ v, findVideoById (download_audio video_id youtube_url denv db).db video_id =
        some v → pyTruthy v.audio_url = true →
      (process_chain_tasks video_id youtube_url denv tenv senv db).invoked =
        [Stage.fetch, Stage.transcribe, Stage.summarize]) := by
  refine ⟨fun h => ?_, fun v h ht => ?_, fun v h ht => ?_⟩
  · simp [process_chain_tasks, h]
  · cases hu : v.audio_url with
    | none => simp [process_chain_tasks, h, hu]
    | some url =>
      have : (url != "") = false := by simpa [pyTruthy, hu] using ht
      simp [process_chain_tasks, h, hu, this]
  · cases hu : v.audio_url with
    | none => simp [pyTruthy, hu] at ht
    | some url =>
      have : (url != "") = true := by simpa [pyTruthy, hu] using ht
      simp [process_chain_tasks, h, hu, this]

/-- C2 (witness).  On a database holding one Video row and a failing
download environment, the audio reference stays empty after Fetch-Audio
and the chain runs exactly Fetch-Audio and Summarize. -/
theorem chain_skips_transcribe_only_witness :
    (findVideoById (download_audio 1 "u" denvFail dbC).db 1 = some v1) ∧
      pyTruthy v1.audio_url = false ∧
      (process_chain_tasks 1 "u" denvFail tenvStub senvErr dbC).invoked =
        [Stage.fetch, Stage.summarize] := by
  refine ⟨by decide, by decide, ?_⟩
  exact (chain_skips_transcribe_only 1 "u" denvFail tenvStub senvErr dbC).2.1
    v1 (by decide) (by decide)

/-- C2 (counterexample).  With the same failing fetch, Summarize IS
invoked for the run — the invoked list is [fetch, summarize] — refuting
the claim that a Fetch-Audio failure prevents the Summarize stage from
being invoked. -/
theorem chain_counterexample :
    (findVideoById (download_audio 1 "u" denvFail dbC).db 1).map
        VideoRow.audio_url = some none ∧
      Stage.summarize ∈ (process_chain_tasks 1 "u" denvFail tenvStub senvErr dbC).invoked := by
  constructor
  · decide
  · decide

/-! ## Failure propagation (C3) -/

/-- C3 (amended).  download_audio (tasks.py:97-99) and transcribe_audio
(tasks.py:188-190) catch every exception of their body: no exception ever
propagates to the Worker Loop or Chain Orchestrator and the functions
return no failure indication (the Python functions return None on every
path).  A caught failure is observable only through durable state; in
particular the Video rows are exactly as before the call. -/
theorem stage_failures_swallowed (video_id : Nat) (url : String)
    (denv : DownloadEnv) (tenv : TranscribeEnv) (db : DB) :
    (download_audio video_id url denv db).raised = false ∧
    (transcribe_audio video_id url tenv db).raised = false ∧
    ((download_audio video_id url denv db).caughtError.isSome = true →
      (download_audio video_id url denv db).db.videos = db.videos) ∧
    ((transcribe_audio video_id url tenv db).caughtError.isSome = true →
      (transcribe_audio video_id url tenv db).db.videos = db.videos) := by
  refine ⟨?_, ?_, ?_, ?_⟩
  · unfold download_audio
    dsimp only
    (repeat' split) <;> rfl
  · unfold transcribe_audio transcribeCore finishTranscribe
    dsimp only
    (repeat' split) <;> rfl
  · unfold download_audio
    dsimp only
    (repeat' split) <;> intro h <;> simp_all [addTaskRow, setLastTaskStatus, updateVideo]
  · unfold transcribe_audio transcribeCore finishTranscribe
    dsimp only
    (repeat' split) <;> intro h <;> simp_all [addTaskRow, setLastTaskStatus, updateVideo]

/-- C3 (witness).  A failing download run with a concrete environment:
the failure is caught and nothing propagates, and the Video rows are
untouched. -/
theorem stage_failures_swallowed_witness :
    (download_audio 1 "u" denvFail dbC).caughtError.isSome = true ∧
      (download_audio 1 "u" denvFail dbC).raised = false ∧
      (download_audio 1 "u" denvFail dbC).db.videos = dbC.videos := by
  refine ⟨by decide, ?_, ?_⟩
  · exact (stage_failures_swallowed 1 "u" denvFail tenvStub dbC).1
  · exact (stage_failures_swallowed 1 "u" denvFail tenvStub dbC).2.2.1 (by decide)

/-- C3 (counterexample).  A failing download_audio execution (yt-dlp
produced no file) whose failure is caught — caughtError is set — yet no
exception reaches the caller and no failure value is returned, refuting
the claim that every failing executor run surfaces its failure. -/
theorem swallowed_failure_counterexample :
    (download_audio 1 "u" denvFail dbC).caughtError.isSome = true ∧
      (download_audio 1 "u" denvFail dbC).raised = false := by
  constructor
  · decide
  · decide

/-! ## Failure bookkeeping (C4) -/

/-- C4 (amended).  On a caught failure, download_audio and
transcribe_audio leave exactly the stage-start row — still IN_PROGRESS,
with no error message — and append NO FAILED row; uncommitted writes are
discarded, so the Video rows are unchanged.  Only summarize_text records
the failure: when the Video row exists it appends a fresh FAILED task row
carrying the error message (the start row, when one was created, stays
IN_PROGRESS), again leaving the Video rows unchanged. -/
theorem failure_bookkeeping (video_id : Nat) (url yt : String)
    (denv : DownloadEnv) (tenv : TranscribeEnv) (senv : SummarizeEnv) (db : DB) :
    ((download_audio video_id url denv db).caughtError.isSome = true →
      (download_audio video_id url denv db).db.tasks =
        db.tasks ++ [startRow video_id "DOWNLOAD_AUDIO"]) ∧
    ((transcribe_audio video_id url tenv db).caughtError.isSome = true →
      (transcribe_audio video_id url tenv db).db.tasks =
        db.tasks ++ [startRow video_id "TRANSCRIBE"]) ∧
    (∀ v, findVideoByYt db yt = some v →
      (summarize_text yt senv db).caughtError.isSome = true →
      (∃ fr, (summarize_text yt senv db).db.tasks.getLast? = some fr ∧
        fr.status = "FAILED" ∧ fr.error_message.isSome = true) ∧
      (summarize_text yt senv db).db.videos = db.videos) := by
  refine ⟨?_, ?_, ?_⟩
  · unfold download_audio
    dsimp only
    (repeat' split) <;> intro h <;>
      simp_all [addTaskRow, setLastTaskStatus, startRow]
  · unfold transcribe_audio transcribeCore finishTranscribe
    dsimp only
    (repeat' split) <;> intro h <;>
      simp_all [addTaskRow, setLastTaskStatus, startRow]
  · intro v hv
    unfold summarize_text
    rw [hv]
    dsimp only
    by_cases ht : pyTruthy v.transcript_text = false
    · rw [if_pos ht]
      intro _
      refine ⟨⟨{ video_id := some v.id
                 task_type := "SUMMARIZE"
                 status := "FAILED"
                 priority := 0
                 error_message := some ("Transcript text not found in DB for video_id="
                   ++ toString v.id ++ ".") }, ?_, rfl, rfl⟩, rfl⟩
      simp [addTaskRow]
    · rw [if_neg ht]
      intro h
      cases hr : (runChunks senv.llm
          (split_text 1000 100 (v.transcript_text.getD ""))).2 with
      | none =>
        refine ⟨⟨{ video_id := some v.id
                   task_type := "SUMMARIZE"
                   status := "FAILED"
                   priority := 0
                   error_message := some "summarization failed" }, ?_, rfl, rfl⟩, rfl⟩
        simp [addTaskRow, List.getLast?_concat]
      | some sp =>
        rw [hr] at h
        simp at h

/-- C4 (witness).  The concrete failing download run leaves exactly the
IN_PROGRESS start row; a summarize run on a video without transcript
appends a FAILED row carrying the error message. -/
theorem failure_bookkeeping_witness :
    (download_audio 1 "u" denvFail dbC).caughtError.isSome = true ∧
      (download_audio 1 "u" denvFail dbC).db.tasks =
        dbC.tasks ++ [startRow 1 "DOWNLOAD_AUDIO"] ∧
      findVideoByYt dbC "yt1" = some v1 ∧
      (∃ fr, (summarize_text "yt1" senvErr dbC).db.tasks.getLast? = some fr ∧
        fr.status = "FAILED" ∧ fr.error_message.isSome = true) := by
  refine ⟨by decide, ?_, by decide, ?_⟩
  · exact (failure_bookkeeping 1 "u" "yt1" denvFail tenvStub senvErr dbC).1 (by decide)
  · exact (((failure_bookkeeping 1 "u" "yt1" denvFail tenvStub senvErr dbC).2.2
      v1 (by decide)) (by decide)).1

/-! ## Summarize fail-fast on missing transcript (C8) -/

/-- C8.  When the Video row exists but transcript_text is null or empty,
summarize_text raises at tasks.py:209-210 before the task row is created
and before the chunk loop: no external effect is issued at all — in
particular zero summarization model calls — the Video rows are untouched,
and the attempt is recorded as a FAILED task row carrying the error
message. -/
theorem summarize_empty_transcript_no_model_calls (yt : String)
    (senv : SummarizeEnv) (db : DB) (v : VideoRow)
    (hv : findVideoByYt db yt = some v)
    (ht : pyTruthy v.transcript_text = false) :
    (summarize_text yt senv db).effects = [] ∧
      (summarize_text yt senv db).caughtError.isSome = true ∧
      (summarize_text yt senv db).db.videos = db.videos ∧
      (summarize_text yt senv db).db.tasks =
        db.tasks ++ [{ video_id := some v.id
                       task_type := "SUMMARIZE"
                       status := "FAILED"
                       priority := 0
                       error_message := some ("Transcript text not found in DB for video_id="
                         ++ toString v.id ++ ".") }] := by
  unfold summarize_text
  rw [hv]
  dsimp only
  rw [if_pos ht]
  exact ⟨rfl, rfl, rfl, rfl⟩

/-- C8 (witness).  On the concrete database whose only video has no
transcript, summarize_text issues no effect and fails, even though the
model oracle would answer successfully. -/
theorem summarize_empty_transcript_witness :
    findVideoByYt dbC "yt1" = some v1 ∧
      pyTruthy v1.transcript_text = false ∧
      (summarize_text "yt1" senvOk dbC).effects = [] ∧
      (summarize_text "yt1" senvOk dbC).caughtError.isSome = true := by
  refine ⟨by decide, by decide, ?_, ?_⟩
  · exact (summarize_empty_transcript_no_model_calls "yt1" senvOk dbC v1
      (by decide) (by decide)).1
  · exact (summarize_empty_transcript_no_model_calls "yt1" senvOk dbC v1
      (by decide) (by decide)).2.1

/-! ## Splitter lemmas (C6) -/

/-- Scanning a text in which the separator never occurs yields the single
piece acc.reverse ++ t. -/
theorem splitOnSepGo_noSep (sep : List Char) :
    ∀ (t acc : List Char) (fuel : Nat), t.length ≤ fuel →
      containsSeq sep t = false →
      splitOnSepGo sep fuel t acc = [acc.reverse ++ t] := by
  intro t
  induction t with
  | nil =>
    intro acc fuel _ _
    cases fuel <;> simp [splitOnSepGo]
  | cons c cs ih =>
    intro acc fuel hf hc
    cases fuel with
    | zero => simp at hf
    | succ f =>
      unfold containsSeq at hc
      rw [Bool.or_eq_false_iff] at hc
      have h1 : prefixEat sep (c :: cs) = none := by
        cases hpe : prefixEat sep (c :: cs) with
        | none => rfl
        | some r => rw [hpe] at hc; simp at hc
      unfold splitOnSepGo
      rw [h1]
      have hf2 : cs.length ≤ f := by simpa using hf
      rw [ih (c :: acc) f hf2 hc.2]
      simp

/-- re.split of a separator-free text is the whole text. -/
theorem splitOnSep_noSep (sep t : List Char)
    (hc : containsSeq sep t = false) : splitOnSep sep t = [t] := by
  unfold splitOnSep
  simpa using splitOnSepGo_noSep sep t [] t.length le_rfl hc

/-- CharacterTextSplitter does not cut inside a separator-free text: the
split is the single whole text, no matter how much longer than chunk_size
it is (the piece is emitted whole with only a length warning). -/
theorem splitTextChars_noSep (chunkSize overlap : Nat) (t : List Char)
    (hc : containsSeq sepChars t = false) (hs : pyStrip t = t)
    (hne : t ≠ []) : splitTextChars chunkSize overlap t = [t] := by
  unfold splitTextChars
  rw [splitOnSep_noSep sepChars t hc]
  have hfe : List.filter (fun p => !p.isEmpty) [t] = [t] := by
    simp [List.filter_cons, hne]
  rw [hfe]
  have hj : joinDocs [t] sepChars = some t := by
    simp [joinDocs, intercalateL, hs, hne]
  simp only [mergeGo]
  split <;> simp_all [mergeGo, hj]

/-- The separator "\n\n" never occurs in a run of letters. -/
theorem containsSeq_replicate_a (n : Nat) :
    containsSeq sepChars (List.replicate n 'a') = false := by
  induction n with
  | zero => rfl
  | succ m ih =>
    rw [List.replicate_succ]
    unfold containsSeq
    rw [Bool.or_eq_false_iff]
    refine ⟨?_, ih⟩
    simp [prefixEat, sepChars]

/-- A run of letters has no surrounding whitespace to strip. -/
theorem pyStrip_replicate_a (n : Nat) :
    pyStrip (List.replicate n 'a') = List.replicate n 'a' := by
  have hd : ∀ m, (List.replicate m 'a').dropWhile pyWhitespace =
      List.replicate m 'a' := by
    intro m
    cases m with
    | zero => rfl
    | succ k => simp [List.replicate_succ, List.dropWhile, pyWhitespace]
  unfold pyStrip
  rw [hd, List.reverse_replicate, hd, List.reverse_replicate]

/-- The 2500-character separator-free transcript is one single chunk. -/
theorem split_text_repA : split_text 1000 100 repAStr = [repAStr] := by
  have hne : repA ≠ [] := by
    unfold repA
    intro h
    have h2 := congrArg List.length h
    rw [List.length_replicate] at h2
    exact absurd h2 (by decide)
  show (splitTextChars 1000 100 repA).map String.mk = [repAStr]
  rw [splitTextChars_noSep 1000 100 repA (containsSeq_replicate_a 2500)
    (pyStrip_replicate_a 2500) hne]
  rfl

/-- The transcript length of the scenario. -/
theorem repA_length : repA.length = 2500 := by
  unfold repA
  rw [List.length_replicate]

/-- The scenario transcript is non-empty. -/
theorem repA_ne_nil : repA ≠ [] := by
  unfold repA
  intro h
  have h2 := congrArg List.length h
  rw [List.length_replicate] at h2
  exact absurd h2 (by decide)

/-- A non-empty string column is truthy. -/
theorem pyTruthy_mk (t : List Char) (h : t ≠ []) :
    pyTruthy (some (String.mk t)) = true := by
  simp [pyTruthy, bne_iff_ne, String.ext_iff, h]

/-- Shared computation: summarize_text on a video whose transcript is a
separator-free text produces one chunk, one model call, and stores that
chunk's summary and points verbatim. -/
theorem summarize_noSep_run (yt s p : String) (t : List Char)
    (senv : SummarizeEnv) (db : DB) (v : VideoRow)
    (hv : findVideoByYt db yt = some v)
    (htr : v.transcript_text = some (String.mk t))
    (hc : containsSeq sepChars t = false)
    (hs : pyStrip t = t)
    (hne : t ≠ [])
    (hllm : senv.llm (String.mk t) = LLMOutcome.ok s p) :
    split_text 1000 100 (String.mk t) = [String.mk t] ∧
      (summarize_text yt senv db).effects =
        [Effect.llmCall (String.mk t), Effect.videoWrite "summary_text",
         Effect.videoWrite "final_points"] ∧
      (summarize_text yt senv db).db.videos =
        db.videos.map (fun w => if w.id == v.id then
          { w with summary_text := some s, final_points := some p } else w) := by
  have hsplit : split_text 1000 100 (String.mk t) = [String.mk t] := by
    show (splitTextChars 1000 100 t).map String.mk = [String.mk t]
    rw [splitTextChars_noSep 1000 100 t hc hs hne]
    rfl
  have htruthy : pyTruthy v.transcript_text = true := by
    rw [htr]
    exact pyTruthy_mk t hne
  have hrun : runChunks senv.llm [String.mk t] =
      ([Effect.llmCall (String.mk t)], some ([s], [p])) := by
    unfold runChunks
    rw [hllm]
    rfl
  refine ⟨hsplit, ?_, ?_⟩ <;>
  · unfold summarize_text
    rw [hv]
    dsimp only
    rw [if_neg (by simp [htruthy])]
    rw [htr]
    dsimp only [Option.getD]
    rw [hsplit, hrun]
    dsimp only [setLastTaskStatus, updateVideo, addTaskRow]
    rfl

/-- C6 (amended).  The splitter the code actually uses (langchain
CharacterTextSplitter at tasks.py:228) is separator-based, not
fixed-window: on a 2500-character transcript containing no blank-line
separator "\n\n" (and no surrounding whitespace), split_text with
chunk_size=1000 and overlap=100 yields exactly ONE chunk equal to the
whole transcript; summarize_text therefore issues exactly one model call,
and the stored summary_text is that single chunk's summary with no
blank-line join. -/
theorem summarize_separator_free_single_chunk (yt s p : String) (t : List Char)
    (senv : SummarizeEnv) (db : DB) (v : VideoRow)
    (hv : findVideoByYt db yt = some v)
    (htr : v.transcript_text = some (String.mk t))
    (hlen : t.length = 2500)
    (hc : containsSeq sepChars t = false)
    (hs : pyStrip t = t)
    (hne : t ≠ [])
    (hllm : senv.llm (String.mk t) = LLMOutcome.ok s p) :
    split_text 1000 100 (String.mk t) = [String.mk t] ∧
      (summarize_text yt senv db).effects =
        [Effect.llmCall (String.mk t), Effect.videoWrite "summary_text",
         Effect.videoWrite "final_points"] ∧
      (summarize_text yt senv db).db.videos =
        db.videos.map (fun w => if w.id == v.id then
          { w with summary_text := some s, final_points := some p } else w) :=
  summarize_noSep_run yt s p t senv db v hv htr hc hs hne hllm

/-- C6 (witness).  On the concrete 2500-character transcript of letters
the amended behaviour is realized: one chunk, one model call, summary "S"
stored without a blank-line join. -/
theorem summarize_separator_free_witness :
    findVideoByYt dbRep "vid123" = some vRep ∧
      repA.length = 2500 ∧
      containsSeq sepChars repA = false ∧
      senvOk.llm repAStr = LLMOutcome.ok "S" "P" ∧
      split_text 1000 100 repAStr = [repAStr] ∧
      (summarize_text "vid123" senvOk dbRep).effects =
        [Effect.llmCall repAStr, Effect.videoWrite "summary_text",
         Effect.videoWrite "final_points"] := by
  have h := summarize_separator_free_single_chunk "vid123" "S" "P" repA
    senvOk dbRep vRep rfl rfl repA_length (containsSeq_replicate_a 2500)
    (pyStrip_replicate_a 2500) repA_ne_nil rfl
  exact ⟨rfl, repA_length, containsSeq_replicate_a 2500, rfl, h.1, h.2.1⟩

/-- C6 (counterexample).  On a 2500-character transcript with no
blank-line separator, the splitter yields 1 chunk — not the claimed 3
chunks of lengths 1000/1000/600 — and summarize_text issues exactly 1
model call, not 3.  (The claim is also internally inconsistent: its third
boundary 1800-2500 has length 700, not 600.) -/
theorem summarize_chunking_counterexample :
    repA.length = 2500 ∧
      (split_text 1000 100 repAStr).length = 1 ∧
      ¬ ((split_text 1000 100 repAStr).length = 3) ∧
      (split_text 1000 100 repAStr).map String.length = [2500] ∧
      (summarize_text "vid123" senvOk dbRep).effects.countP
        (fun e => match e with | Effect.llmCall _ => true | _ => false) = 1 := by
  have h := summarize_noSep_run "vid123" "S" "P" repA
    senvOk dbRep vRep rfl rfl (containsSeq_replicate_a 2500)
    (pyStrip_replicate_a 2500) repA_ne_nil rfl
  have h1 : (split_text 1000 100 repAStr).length = 1 := by
    rw [split_text_repA]
    rfl
  refine ⟨repA_length, h1, ?_, ?_, ?_⟩
  · rw [h1]
    decide
  · rw [split_text_repA]
    show [(String.mk repA).length] = [2500]
    rw [show (String.mk repA).length = repA.length from rfl, repA_length]
  · have heff := h.2.1
    rw [heff]
    rfl

/-- C4 (counterexample).  The concrete failing download run ends with NO
task row in status FAILED at all — the only row of the attempt is still
IN_PROGRESS — refuting the claim that every failing stage execution ends
with a FAILED Task Record carrying the error message. -/
theorem no_failed_record_counterexample :
    (download_audio 1 "u" denvFail dbC).caughtError.isSome = true ∧
      ((download_audio 1 "u" denvFail dbC).db.tasks.filter
        (fun t => t.status == "FAILED")) = [] ∧
      (download_audio 1 "u" denvFail dbC).db.tasks.map TaskRow.status =
        ["IN_PROGRESS"] := by
  refine ⟨by decide, by decide, by decide⟩

/-! ## Segment ordering lemmas (C7) -/

/-- Decimal digit characters compare like the digits they denote. -/
theorem digitChar_lt_digitChar :
    ∀ a, a < 10 → ∀ b, b < 10 → a < b → digitChar a < digitChar b := by
  decide

/-- lexLe ignores a common prefix. -/
theorem lexLe_append_same (pre : List Char) (a b : List Char) :
    lexLe (pre ++ a) (pre ++ b) = lexLe a b := by
  induction pre with
  | nil => rfl
  | cons c p ih => simp [lexLe, lt_irrefl, ih]

/-- The zero-padded segment names compare lexicographically like their
indices, for indices below 1000. -/
theorem splitName_lexLe (i j : Nat) (hij : i < j) (hj : j < 1000) :
    lexLe (splitName i) (splitName j) = true := by
  unfold splitName
  rw [List.append_assoc, List.append_assoc, lexLe_append_same]
  have d2i : i / 100 < 10 := by omega
  have d2j : j / 100 < 10 := by omega
  have d1i : i / 10 % 10 < 10 := by omega
  have d1j : j / 10 % 10 < 10 := by omega
  have d0i : i % 10 < 10 := by omega
  have d0j : j % 10 < 10 := by omega
  rcases Nat.lt_trichotomy (i / 100) (j / 100) with h2 | h2 | h2
  · have hc := digitChar_lt_digitChar _ d2i _ d2j h2
    simp [lexLe, hc]
  · rw [h2]
    simp only [List.cons_append, lexLe, lt_irrefl, if_false]
    rcases Nat.lt_trichotomy (i / 10 % 10) (j / 10 % 10) with h1 | h1 | h1
    · have hc := digitChar_lt_digitChar _ d1i _ d1j h1
      simp [lexLe, hc]
    · rw [h1]
      simp only [lexLe, lt_irrefl, if_false]
      rcases Nat.lt_trichotomy (i % 10) (j % 10) with h0 | h0 | h0
      · have hc := digitChar_lt_digitChar _ d0i _ d0j h0
        simp [lexLe, hc]
      · omega
      · omega
    · omega
  · omega

/-- Transitivity of the lexicographic comparison. -/
theorem lexLe_trans : ∀ a b c : List Char,
    lexLe a b = true → lexLe b c = true → lexLe a c = true
  | [], _, _, _, _ => rfl
  | _ :: _, [], _, h, _ => by simp [lexLe] at h
  | _ :: _, _ :: _, [], _, h => by simp [lexLe] at h
  | x :: xs, y :: ys, z :: zs, h1, h2 => by
    simp only [lexLe] at h1 h2 ⊢
    by_cases hxy : x < y
    · by_cases hyz : y < z
      · rw [if_pos (lt_trans hxy hyz)]
      · by_cases hzy : z < y
        · rw [if_neg hyz, if_pos hzy] at h2
          cases h2
        · have h : y = z := le_antisymm (le_of_not_lt hzy) (le_of_not_lt hyz)
          subst h
          rw [if_pos hxy]
    · by_cases hyx : y < x
      · rw [if_neg hxy, if_pos hyx] at h1
        cases h1
      · have h : x = y := le_antisymm (le_of_not_lt hyx) (le_of_not_lt hxy)
        subst h
        rw [if_neg hxy, if_neg hyx] at h1
        by_cases hxz : x < z
        · rw [if_pos hxz]
        · by_cases hzx : z < x
          · rw [if_neg hxz, if_pos hzx] at h2
            cases h2
          · have h : x = z := le_antisymm (le_of_not_lt hzx) (le_of_not_lt hxz)
            subst h
            rw [if_neg hxz, if_neg hzx] at h2 ⊢
            exact lexLe_trans xs ys zs h1 h2

/-- Totality of the lexicographic comparison. -/
theorem lexLe_total : ∀ a b : List Char, lexLe a b = true ∨ lexLe b a = true
  | [], _ => Or.inl rfl
  | _ :: _, [] => Or.inr rfl
  | x :: xs, y :: ys => by
    simp only [lexLe]
    rcases lt_trichotomy x y with h | h | h
    · left
      rw [if_pos h]
    · subst h
      simp only [lt_irrefl, if_false]
      exact lexLe_total xs ys
    · right
      rw [if_pos h]

/-- Antisymmetry of the lexicographic comparison. -/
theorem lexLe_antisymm : ∀ a b : List Char,
    lexLe a b = true → lexLe b a = true → a = b
  | [], [], _, _ => rfl
  | [], _ :: _, _, h2 => by simp [lexLe] at h2
  | _ :: _, [], h1, _ => by simp [lexLe] at h1
  | x :: xs, y :: ys, h1, h2 => by
    simp only [lexLe] at h1 h2
    by_cases hxy : x < y
    · rw [if_neg (lt_asymm hxy), if_pos hxy] at h2
      cases h2
    · by_cases hyx : y < x
      · rw [if_neg hxy, if_pos hyx] at h1
        cases h1
      · have h : x = y := le_antisymm (le_of_not_lt hyx) (le_of_not_lt hxy)
        subst h
        rw [if_neg hxy, if_neg hxy] at h1 h2
        rw [lexLe_antisymm xs ys h1 h2]

instance : IsTrans (List Char) fileLe :=
  ⟨fun a b c => lexLe_trans a b c⟩

instance : IsTotal (List Char) fileLe :=
  ⟨fun a b => lexLe_total a b⟩

instance : IsAntisymm (List Char) fileLe :=
  ⟨fun a b => lexLe_antisymm a b⟩

/-- The ffmpeg segment names, in index order, are lexicographically
sorted (for at most 1000 segments). -/
theorem splitNames_sorted (n : Nat) (hn : n ≤ 1000) :
    List.Sorted fileLe ((List.range n).map splitName) := by
  refine (List.pairwise_map).mpr ?_
  refine (List.pairwise_lt_range n).imp_of_mem ?_
  intro a b _ hb hab
  have hbn : b < n := List.mem_range.mp hb
  exact splitName_lexLe a b hab (lt_of_lt_of_le hbn hn)

/-- Sorting any glob ordering of the segment files recovers the temporal
(index) order: the lexical order of split_%03d names matches it. -/
theorem sortFiles_eq (n : Nat) (hn : n ≤ 1000) (l : List (List Char))
    (hperm : l.Perm ((List.range n).map splitName)) :
    sortFiles l = (List.range n).map splitName := by
  refine List.eq_of_perm_of_sorted
    ((List.perm_insertionSort fileLe l).trans hperm) ?_ (splitNames_sorted n hn)
  exact List.sorted_insertionSort fileLe l

/-- When every transcription call succeeds, the segment loop transcribes
the files in list order, with one whisper call per file, and accumulates
each text followed by a newline. -/
theorem transcribeLoop_all_some (f : List Char → Option String) :
    ∀ (files : List (List Char)) (acc : String),
      (∀ p ∈ files, (f p).isSome = true) →
      transcribeLoop f acc files =
        (files.map Effect.whisperCall, some (acc ++ joinSegs f files)) := by
  intro files
  induction files with
  | nil =>
    intro acc _
    simp [transcribeLoop, joinSegs, String.append_empty]
  | cons p ps ih =>
    intro acc h
    have hp : (f p).isSome = true := h p (List.mem_cons_self p ps)
    obtain ⟨t, ht⟩ := Option.isSome_iff_exists.mp hp
    unfold transcribeLoop
    rw [ht]
    dsimp only
    rw [ih (acc ++ t ++ "\n") (fun q hq => h q (List.mem_cons_of_mem p hq))]
    simp [joinSegs, ht, String.append_assoc]

/-- Every effect the segment loop issues is a whisper call. -/
theorem transcribeLoop_effects_whisper (f : List Char → Option String) :
    ∀ (files : List (List Char)) (acc : String) (e : Effect),
      e ∈ (transcribeLoop f acc files).1 → ∃ p, e = Effect.whisperCall p := by
  intro files
  induction files with
  | nil => intro acc e he; simp [transcribeLoop] at he
  | cons p ps ih =>
    intro acc e he
    unfold transcribeLoop at he
    cases hf : f p with
    | none =>
      rw [hf] at he
      simp at he
      exact ⟨p, he⟩
    | some t =>
      rw [hf] at he
      simp at he
      rcases he with he | he
      · exact ⟨p, he⟩
      · exact ih (acc ++ t ++ "\n") e he

/-- C7.  transcribe_audio splits exactly when the blob exceeds
20 MiB (tasks.py:140): it then runs ffmpeg with fixed 300-second segments
and stream copy (-c copy, no re-encoding), transcribes the segment files
in sorted-name order — which, by the lexical ordering of the split_%03d
names, is temporal order for any glob ordering — concatenates each
segment transcript followed by a newline, and performs a single
transcript_text write at the very end (the one videoWrite effect, after
all whisper calls).  A blob of 20 MiB or less is transcribed directly
with one whisper call and no ffmpeg run. -/
theorem transcribe_threshold_and_ordering (video_id : Nat) (audio_url : String)
    (tenv : TranscribeEnv) (db : DB)
    (hconn : ¬ tenv.blobConnStr = "")
    (hblob : tenv.blobOk = true)
    (hv : (findVideoById db video_id).isSome = true)
    (hffm : tenv.ffmpegOk = true)
    (hn : tenv.numSegments ≤ 1000)
    (hperm : tenv.globOrder.Perm (List.range tenv.numSegments))
    (hseg : ∀ i, i < tenv.numSegments → (tenv.segText (splitName i)).isSome = true)
    (hdir : tenv.directText.isSome = true) :
    (20 * 1024 * 1024 < tenv.sizeBytes →
      (transcribe_audio video_id audio_url tenv db).effects =
        [Effect.blobGet (blobKey video_id), Effect.ffmpegRun ffmpegCmd] ++
          (List.range tenv.numSegments).map
            (fun i => Effect.whisperCall (splitName i)) ++
          [Effect.videoWrite "transcript_text"] ∧
      (transcribe_audio video_id audio_url tenv db).db.videos =
        db.videos.map (fun w => if w.id == video_id then
          { w with transcript_text := some (joinSegs tenv.segText ((List.range tenv.numSegments).map splitName)) } else w)) ∧
    (tenv.sizeBytes ≤ 20 * 1024 * 1024 →
      (transcribe_audio video_id audio_url tenv db).effects =
        [Effect.blobGet (blobKey video_id), Effect.whisperCall tempMp3Path,
         Effect.videoWrite "transcript_text"] ∧
      (transcribe_audio video_id audio_url tenv db).db.videos =
        db.videos.map (fun w => if w.id == video_id then
          { w with transcript_text := some (tenv.directText.getD "") } else w)) := by
  obtain ⟨w, hw⟩ := Option.isSome_iff_exists.mp hv
  obtain ⟨dt, hdt⟩ := Option.isSome_iff_exists.mp hdir
  have hw2 : findVideoById (addTaskRow db { video_id := some video_id, task_type := "TRANSCRIBE", status := "IN_PROGRESS", priority := 9, error_message := none }) video_id = some w := hw
  have hmem : ∀ p ∈ (List.range tenv.numSegments).map splitName,
      (tenv.segText p).isSome = true := by
    intro p hp
    obtain ⟨i, hi, rfl⟩ := List.mem_map.mp hp
    exact hseg i (List.mem_range.mp hi)
  have hsort : sortFiles (tenv.globOrder.map splitName) =
      (List.range tenv.numSegments).map splitName :=
    sortFiles_eq tenv.numSegments hn _ (hperm.map splitName)
  have hloop := transcribeLoop_all_some tenv.segText
    ((List.range tenv.numSegments).map splitName) "" hmem
  constructor
  · intro hsize
    show (transcribeCore video_id tenv db).effects = _ ∧
      (transcribeCore video_id tenv db).db.videos = _
    unfold transcribeCore
    rw [if_neg hconn, if_neg (by simp [hblob]), if_pos hsize,
      if_neg (by simp [hffm])]
    dsimp only
    rw [hsort, hloop]
    dsimp only
    unfold finishTranscribe
    rw [hw2]
    dsimp only [setLastTaskStatus, updateVideo, addTaskRow]
    constructor
    · simp [List.map_map]
    · simp [String.empty_append]
  · intro hsize
    show (transcribeCore video_id tenv db).effects = _ ∧
      (transcribeCore video_id tenv db).db.videos = _
    unfold transcribeCore
    rw [if_neg hconn, if_neg (by simp [hblob]), if_neg (by omega)]
    rw [hdt]
    dsimp only
    unfold finishTranscribe
    rw [hw2]
    dsimp only [setLastTaskStatus, updateVideo, addTaskRow]
    exact ⟨rfl, rfl⟩

/-- C7 (witness).  A 25 MiB blob: two segments globbed out of order are
sorted back, each transcribed once in order, and the single final write
stores "t0\nt1\n"; a 5 MiB blob is transcribed directly. -/
theorem transcribe_threshold_and_ordering_witness :
    tenvW.globOrder.Perm (List.range tenvW.numSegments) ∧
      20 * 1024 * 1024 < tenvW.sizeBytes ∧
      (transcribe_audio 1 "urlA" tenvW dbC).effects =
        [Effect.blobGet (blobKey 1), Effect.ffmpegRun ffmpegCmd] ++
          (List.range tenvW.numSegments).map
            (fun i => Effect.whisperCall (splitName i)) ++
          [Effect.videoWrite "transcript_text"] ∧
      tenvSmall.sizeBytes ≤ 20 * 1024 * 1024 ∧
      (transcribe_audio 1 "urlA" tenvSmall dbC).effects =
        [Effect.blobGet (blobKey 1), Effect.whisperCall tempMp3Path,
         Effect.videoWrite "transcript_text"] := by
  refine ⟨by decide, by decide, ?_, by decide, ?_⟩
  · exact ((transcribe_threshold_and_ordering 1 "urlA" tenvW dbC
      (by decide) (by decide) (by decide) (by decide) (by decide)
      (by decide) (by decide) (by decide)).1 (by decide)).1
  · exact ((transcribe_threshold_and_ordering 1 "urlA" tenvSmall dbC
      (by decide) (by decide) (by decide) (by decide) (by decide)
      (by decide) (by decide) (by decide)).2 (by decide)).1

/-! ## Noninterference of audio_url (C10) -/

/-- Every blobGet the transcribe stage issues uses the key
f"{video_id}.mp3". -/
theorem transcribeCore_blobGet_key (video_id : Nat) (tenv : TranscribeEnv)
    (db : DB) :
    ∀ k, Effect.blobGet k ∈ (transcribeCore video_id tenv db).effects →
      k = blobKey video_id := by
  intro k hk
  unfold transcribeCore finishTranscribe at hk
  dsimp only at hk
  (repeat' split at hk) <;>
    simp at hk <;>
    first
    | exact hk
    | (rcases hk with hk | hk
       · exact hk
       · obtain ⟨p, hp⟩ := transcribeLoop_effects_whisper tenv.segText _ _ _ hk
         cases hp)

/-- C10.  transcribe_audio does not depend on its audio_url argument
except for the start log line (tasks.py:104): two runs with the same
video_id, oracle environment and database but different audio_url values
produce the same durable database, the same effects — the blob is always
fetched under f"{video_id}.mp3" — the same caught error and the same
(absent) exception. -/
theorem transcribe_audio_ignores_audio_url (video_id : Nat) (u1 u2 : String)
    (tenv : TranscribeEnv) (db : DB) :
    (transcribe_audio video_id u1 tenv db).db =
        (transcribe_audio video_id u2 tenv db).db ∧
      (transcribe_audio video_id u1 tenv db).effects =
        (transcribe_audio video_id u2 tenv db).effects ∧
      (transcribe_audio video_id u1 tenv db).caughtError =
        (transcribe_audio video_id u2 tenv db).caughtError ∧
      (transcribe_audio video_id u1 tenv db).raised =
        (transcribe_audio video_id u2 tenv db).raised ∧
      (∀ k, Effect.blobGet k ∈ (transcribe_audio video_id u1 tenv db).effects →
        k = blobKey video_id) := by
  refine ⟨rfl, rfl, rfl, rfl, ?_⟩
  intro k hk
  exact transcribeCore_blobGet_key video_id tenv db k hk

/-- C10 (witness).  Two concrete runs differing only in audio_url agree
on the database and effects, and the blob fetched is keyed "1.mp3". -/
theorem transcribe_audio_ignores_audio_url_witness :
    Effect.blobGet "1.mp3" ∈ (transcribe_audio 1 "urlA" tenvW dbC).effects ∧
      "1.mp3" = blobKey 1 ∧
      (transcribe_audio 1 "urlA" tenvW dbC).db =
        (transcribe_audio 1 "urlB" tenvW dbC).db ∧
      (transcribe_audio 1 "urlA" tenvW dbC).effects =
        (transcribe_audio 1 "urlB" tenvW dbC).effects := by
  refine ⟨by decide, ?_, ?_, ?_⟩
  · exact (transcribe_audio_ignores_audio_url 1 "urlA" "urlB" tenvW dbC).2.2.2.2
      "1.mp3" (by decide)
  · exact (transcribe_audio_ignores_audio_url 1 "urlA" "urlB" tenvW dbC).1
  · exact (transcribe_audio_ignores_audio_url 1 "urlA" "urlB" tenvW dbC).2.1
